import Mathlib

/-!
Verification of the per-proxy session lifecycle state machine and fleet
orchestrator of `noda.py` (class `ProxyManager` and function `main`).

The Python code is shallowly embedded: the mutable object state of a
`ProxyManager` becomes an explicit record, each method becomes a pure
function from state (and the outcome of its network call, supplied as a
parameter) to state, and exceptions become `Except` / `Option` results.
JSON response bodies are modelled by the inductive `JVal`.
-/

set_option autoImplicit false

namespace Noda

/-- A JSON value, as produced by `resp.json()`.  Only the shapes the
protocol uses are covered: null, integers, strings and objects. -/
inductive JVal where
  | jnull
  | jint (n : Int)
  | jstr (s : String)
  | jobj (fields : List (String × JVal))
deriving Repr

/-- A JSON object body: an association list of fields, first match wins
(Python dict keys are unique, so this is faithful). -/
abbrev JObj := List (String × JVal)

/-- Dictionary key lookup, `resp[k]` / `resp.get(k)` on a dict. -/
def jlookup : JObj → String → Option JVal
  | [], _ => none
  | (k, v) :: rest, key => if k = key then some v else jlookup rest key

/-- Python truthiness of a JSON value: `None`, `0`, `""` and `{}` are falsy. -/
def jtruthy : JVal → Bool
  | .jnull => false
  | .jint n => decide (n ≠ 0)
  | .jstr s => !s.isEmpty
  | .jobj fields => !fields.isEmpty

/-- Truthiness of `d.get(k)` (a missing key yields `None`, which is falsy). -/
def jtruthyOpt : Option JVal → Bool
  | none => false
  | some v => jtruthy v

/-- `v.get(k)` where `v` may be any JSON value; on a non-dict the Python
call raises `AttributeError`, modelled as `none` only where the caller
handles it (see `render_profile_info`). -/
def jget (v : JVal) (k : String) : Option JVal :=
  match v with
  | .jobj fields => jlookup fields k
  | _ => none

/-- Python `v == n` for an int literal `n`: true exactly when `v` is the
number `n` (any non-number compares unequal without raising). -/
def jeqInt (v : JVal) (n : Int) : Bool :=
  match v with
  | .jint m => m == n
  | _ => false

/-- Python `d.get(k) == n`: a missing key yields `None`, which compares
unequal to every int. -/
def jeqIntOpt (v : Option JVal) (n : Int) : Bool :=
  match v with
  | some v => jeqInt v n
  | none => false

/-! ### Constants (`noda.py`, lines 10-22) -/

/-- `PING_INTERVAL = 30` (seconds between heartbeats; timing is not part
of the state machine but the constant is kept for fidelity). -/
def PING_INTERVAL : Nat := 30

/-- `RETRIES = 60`: the consecutive-failure ceiling consulted by
`handle_ping_fail`. -/
def RETRIES : Nat := 60

/-- `CONNECTION_STATES["CONNECTED"] = 1`. -/
def CONNECTED : Nat := 1

/-- `CONNECTION_STATES["DISCONNECTED"] = 2`. -/
def DISCONNECTED : Nat := 2

/-- `CONNECTION_STATES["NONE_CONNECTION"] = 3`. -/
def NONE_CONNECTION : Nat := 3

/-! ### The per-proxy agent state (`ProxyManager.__init__`, lines 26-32) -/

/-- The mutable state of one `ProxyManager` instance.  `token_info` is
`None` after logout, hence `Option String`; `account_info` starts as the
empty dict `{}` and is assigned `response["data"]` (an arbitrary JSON
value) during authentication, hence `JVal`. -/
structure ProxyManager where
  token_info : Option String
  proxy : String
  browser_id : String
  account_info : JVal
  status_connect : Nat
  retries : Nat
deriving Repr

/-- `ProxyManager(np_token, proxy)`: the constructor.  `browser_id` is
`str(uuid.uuid4())` in the source — a random string generated once — and
is taken here as a parameter. -/
def ProxyManager.init (np_token proxy browser_id : String) : ProxyManager :=
  { token_info := some np_token
    proxy := proxy
    browser_id := browser_id
    account_info := .jobj []
    status_connect := NONE_CONNECTION
    retries := 0 }

/-! ### Response validation (`valid_resp`, lines 49-54) -/

/-- The exception class raised by `valid_resp`: `ValueError("Invalid
response")` for the three explicit checks, or the `TypeError` Python
raises at `resp["code"] < 0` when the code field is not a number. -/
inductive VErr where
  | valueError
  | typeError
deriving DecidableEq, Repr

/-- `valid_resp(resp)`: raises iff the body is absent (`None`), falsy
(the empty dict), lacks a `"code"` key, or its code is negative; any
other body is returned unchanged.  The body is `Option JObj`: `none`
models a null body, `some fields` a parsed JSON object. -/
def valid_resp (resp : Option JObj) : Except VErr JObj :=
  match resp with
  | none => .error .valueError
  | some fields =>
    if fields.isEmpty then .error .valueError
    else
      match jlookup fields ("code") with
      | none => .error .valueError
      | some (.jint c) => if c < 0 then .error .valueError else .ok fields
      | some _ => .error .typeError

/-! ### Logout and heartbeat-failure handling (lines 88-103) -/

/-- `handle_logout`: clear the token, reset the connection state, empty
the account info (lines 98-103). -/
def handle_logout (s : ProxyManager) : ProxyManager :=
  { s with token_info := none
           status_connect := NONE_CONNECTION
           account_info := .jobj [] }

/-- The guard `response and response.get("code") == 403` of
`handle_ping_fail` (line 91): the response is truthy and carries the
numeric code 403. -/
def respIs403 : Option JObj → Bool
  | none => false
  | some fields => !fields.isEmpty && jeqIntOpt (jlookup fields ("code")) 403

/-- `handle_ping_fail(response)` (lines 88-96): increment `retries`,
then log out on a 403 response; otherwise set `DISCONNECTED` — the
below-ceiling and at/above-ceiling branches are kept separate exactly as
in the source. -/
def handle_ping_fail (s : ProxyManager) (response : Option JObj) : ProxyManager :=
  let s' := { s with retries := s.retries + 1 }
  if respIs403 response then
    handle_logout s'
  else if s'.retries < RETRIES then
    { s' with status_connect := DISCONNECTED }
  else
    { s' with status_connect := DISCONNECTED }

/-! ### The heartbeat (`ping`, lines 68-86) -/

/-- The outcome of one `call_api` network interaction, supplied to the
model as an input: either the transport layer raised
(`aiohttp.ClientError`, re-raised as `ValueError`, line 45-47), or a
response body was parsed by `resp.json()` and is handed to
`valid_resp`. -/
inductive ApiOutcome where
  | transportError
  | response (body : Option JObj)
deriving Repr

/-- `ping()` (lines 68-86).  Building the request reads
`self.account_info.get("uid")`; on a non-dict `account_info` that raises
`AttributeError`, which `ping` does not catch (`none`).  Otherwise every
failure of the call or validation is absorbed by
`handle_ping_fail(None)`; a validated response with code 0 resets
`retries` and connects; any other validated response goes to
`handle_ping_fail(response)`. -/
def ping (s : ProxyManager) (o : ApiOutcome) : Option ProxyManager :=
  match s.account_info with
  | .jobj _ =>
    some <|
      match o with
      | .transportError => handle_ping_fail s none
      | .response body =>
        match valid_resp body with
        | .error _ => handle_ping_fail s none
        | .ok fields =>
          if jeqIntOpt (jlookup fields ("code")) 0 then
            { s with retries := 0, status_connect := CONNECTED }
          else
            handle_ping_fail s (some fields)
  | _ => none

/-- `start_ping()` (lines 56-66): one ping, then one per interval, until
cancelled or until an exception escapes `ping` (only the
`AttributeError` above can); both exits are caught and the loop returns.
A finite list of call outcomes models the prefix of the infinite loop
observed before cancellation. -/
def start_ping (s : ProxyManager) : List ApiOutcome → ProxyManager
  | [] => s
  | o :: rest =>
    match ping s o with
    | some s' => start_ping s' rest
    | none => s

/-! ### Authentication and the run entrypoint (lines 105-131) -/

/-- `load_session_info()` (lines 125-127): the placeholder returns the
empty dict. -/
def load_session_info (_s : ProxyManager) : JObj := []

/-- `render_profile_info()` (lines 105-123): the value the orchestrator
awaits.  Every `except` path executes `return None`, and both normal
exits fall off the end of the function (Python's implicit `None`), so
the result component is `Option Unit`.  `auth` is the outcome of the
SESSION call, `pings` the outcomes of the subsequent heartbeats. -/
def render_profile_info (s : ProxyManager) (auth : ApiOutcome) (pings : List ApiOutcome) :
    ProxyManager × Option Unit :=
  let np_session_info := load_session_info s
  if np_session_info.isEmpty then
    match auth with
    | .transportError => (s, none)
    | .response body =>
      match valid_resp body with
      | .error _ => (s, none)
      | .ok fields =>
        match jlookup fields ("data") with
        | none => (s, none)
        | some v =>
          let s' := { s with account_info := v }
          match v with
          | .jobj data =>
            if jtruthyOpt (jlookup data ("uid")) then
              (start_ping s' pings, none)
            else
              (handle_logout s', none)
          | _ => (s', none)
  else
    (start_ping { s with account_info := .jobj (load_session_info s) } pings, none)

/-! ### The fleet orchestrator (`main`, lines 149-167)

`tasks` maps each scheduled task to its proxy; each polling round pops
every completed task whose result is `None`.  Tasks are identified by a
`Nat` id, a round by the list of ids completed-with-`None` in it. -/

/-- One round of `main`'s `while tasks` loop body: every completed task
whose `result()` is `None` is popped from the mapping. -/
def loopStep (tasks : List (Nat × String)) (doneNone : List Nat) : List (Nat × String) :=
  tasks.filter (fun t => !(doneNone.contains t.1))

/-- The orchestrator loop run over a finite schedule of polling rounds. -/
def runLoop (tasks : List (Nat × String)) : List (List Nat) → List (Nat × String)
  | [] => tasks
  | d :: rest => runLoop (loopStep tasks d) rest

/-! ### Classification predicates used in the claims -/

/-- A heartbeat interaction that fails other than by a 403: a transport
error, a body rejected by `valid_resp`, or a validated response whose
code is neither 0 nor 403. -/
def pingFailNon403 : ApiOutcome → Bool
  | .transportError => true
  | .response body =>
    match valid_resp body with
    | .error _ => true
    | .ok fields =>
      !jeqIntOpt (jlookup fields ("code")) 0 && !jeqIntOpt (jlookup fields ("code")) 403

/-- The response bodies on which the claim about `valid_resp` says it
must fail, stated from the claim's own wording: the body is absent,
falsy, lacks a `"code"` field, or carries a negative code. -/
def respInvalidSpec : Option JObj → Bool
  | none => true
  | some fields =>
    fields.isEmpty ||
      match jlookup fields ("code") with
      | none => true
      | some (.jint c) => decide (c < 0)
      | some _ => false

/-- Bodies whose `"code"` field, when present, is a number — the typed
domain of the protocol (`code` is a numeric status code). -/
def codeNumeric : Option JObj → Bool
  | none => true
  | some fields =>
    match jlookup fields ("code") with
    | none => true
    | some (.jint _) => true
    | some _ => false

/-! ## Helper lemmas -/

/-- A successful key lookup means the object is non-empty. -/
lemma jlookup_isEmpty_eq_false {fields : JObj} {k : String} {v : JVal}
    (h : jlookup fields k = some v) : fields.isEmpty = false := by
  cases fields with
  | nil => simp [jlookup] at h
  | cons p rest => rfl

/-- `valid_resp` accepts any object whose code is a non-negative number. -/
lemma valid_resp_ok_of_nonneg {fields : JObj} {c : Int}
    (h : jlookup fields ("code") = some (.jint c)) (hc : 0 ≤ c) :
    valid_resp (some fields) = .ok fields := by
  have hne := jlookup_isEmpty_eq_false h
  simp [valid_resp, hne, h, not_lt.mpr hc]

/-- Anything `runLoop` leaves active was active at the start. -/
lemma mem_of_mem_runLoop {t : Nat × String} :
    ∀ (tasks : List (Nat × String)) (evs : List (List Nat)),
      t ∈ runLoop tasks evs → t ∈ tasks := by
  intro tasks evs
  induction evs generalizing tasks with
  | nil => intro h; exact h
  | cons d rest ih =>
    intro h
    have := ih (loopStep tasks d) h
    exact List.mem_of_mem_filter this

/-! ## Claim theorems -/

/-- Claim C1 (code bug): the invariant "Connected implies a non-empty
uid and a non-empty credential" is violated by the code: a run whose
authentication succeeds, whose first heartbeat answers 403 (forcing
`handle_logout`), and whose second heartbeat answers 0 ends with
`status_connect = CONNECTED` while `token_info` is `None` and
`account_info` is the empty dict — the heartbeat loop keeps running
after logout and a later success reconnects a logged-out agent. -/
theorem c1_connected_invariant_violated :
    (let r := render_profile_info (ProxyManager.init ("tok") ("p1") ("b1"))
        (.response (some [("code", .jint 0), ("data", .jobj [("uid", .jstr ("abc"))])]))
        [.response (some [("code", .jint 403)]), .response (some [("code", .jint 0)])]
     r.1.status_connect = CONNECTED ∧ r.1.token_info = none ∧
       r.1.account_info = JVal.jobj []) :=
  ⟨rfl, rfl, rfl⟩

/-- Claim C9: `handle_logout` is idempotent. -/
theorem c9_logout_idempotent (s : ProxyManager) :
    handle_logout (handle_logout s) = handle_logout s :=
  rfl

/-- Claim C2: a heartbeat whose validated response carries code 403
performs the full logout on any state — token cleared, account info
emptied, state `NONE_CONNECTION` — regardless of the current retry
count (the retry counter itself is incremented before the logout). -/
theorem c2_forbidden_code_forces_logout (s : ProxyManager) (fields f : JObj)
    (hacc : s.account_info = .jobj f)
    (hcode : jlookup fields ("code") = some (.jint 403)) :
    ping s (.response (some fields)) =
      some { s with retries := s.retries + 1, token_info := none,
                    account_info := .jobj [], status_connect := NONE_CONNECTION } := by
  have hv := valid_resp_ok_of_nonneg hcode (by norm_num)
  have hne := jlookup_isEmpty_eq_false hcode
  simp [ping, hacc, hv, hcode, jeqIntOpt, jeqInt, handle_ping_fail, respIs403, hne,
    handle_logout]

/-- Witness for C2 at a concrete state with `retries = 59`. -/
theorem c2_witness :
    ping { ProxyManager.init ("t") ("p") ("b") with retries := 59 }
        (.response (some [("code", .jint 403)])) =
      some { ProxyManager.init ("t") ("p") ("b") with
             retries := 60, token_info := none,
             account_info := .jobj [], status_connect := NONE_CONNECTION } :=
  c2_forbidden_code_forces_logout _ _ [] rfl rfl

/-- Claim C3: a heartbeat whose validated response carries code 0 resets
the retry counter to 0 and sets the state to `CONNECTED`, from any state
and any prior retry count. -/
theorem c3_success_resets_failures (s : ProxyManager) (fields f : JObj)
    (hacc : s.account_info = .jobj f)
    (hcode : jlookup fields ("code") = some (.jint 0)) :
    ping s (.response (some fields)) =
      some { s with retries := 0, status_connect := CONNECTED } := by
  have hv := valid_resp_ok_of_nonneg hcode (le_refl 0)
  simp [ping, hacc, hv, hcode, jeqIntOpt, jeqInt]

/-- Witness for C3 at a concrete state with `retries = 61`, above the
ceiling of 60. -/
theorem c3_witness :
    ping { ProxyManager.init ("t") ("p") ("b") with retries := 61 }
        (.response (some [("code", .jint 0)])) =
      some { ProxyManager.init ("t") ("p") ("b") with retries := 0, status_connect := CONNECTED } :=
  c3_success_resets_failures _ _ [] rfl rfl

/-- Claim C4: on a non-403 failure, `handle_ping_fail` produces the same
state whether the retry count is below, at, or above the ceiling
`RETRIES = 60` — the result does not mention the ceiling at all, so the
two branches of the source are equal and no logout happens at the
ceiling. -/
theorem c4_ceiling_has_no_effect (s : ProxyManager) (resp : Option JObj)
    (h : respIs403 resp = false) :
    handle_ping_fail s resp =
      { s with retries := s.retries + 1, status_connect := DISCONNECTED } := by
  simp [handle_ping_fail, h, ite_self]

/-- Witness for C4 at a concrete state sitting exactly at the ceiling. -/
theorem c4_witness :
    handle_ping_fail { ProxyManager.init ("t") ("p") ("b") with retries := 60 }
        (some [("code", .jint 500)]) =
      { ProxyManager.init ("t") ("p") ("b") with retries := 61, status_connect := DISCONNECTED } :=
  c4_ceiling_has_no_effect _ _ rfl

/-- Counterexample to claim C5 as stated: for a fresh agent whose
authentication call returns `{code: 0, data: {uid: "abc"}}`, the
state at the end of the authentication step has `accountInfo.uid =
"abc"` but its connection state is NOT `CONNECTED` (it is still
`NONE_CONNECTION`): `render_profile_info` never sets `CONNECTED`; only
a later successful heartbeat does. -/
theorem c5_counterexample :
    (let r := render_profile_info (ProxyManager.init ("tok") ("p1") ("b1"))
        (.response (some [("code", .jint 0), ("data", .jobj [("uid", .jstr ("abc"))])])) []
     jget r.1.account_info ("uid") = some (JVal.jstr ("abc")) ∧
       ¬ r.1.status_connect = CONNECTED) :=
  ⟨rfl, by decide⟩

/-- Claim C5 as amended: with the same fresh agent and authentication
response, `accountInfo.uid` equals `"abc"` and the connection state
stays `NONE_CONNECTION` through the authentication step itself; it
becomes `CONNECTED` once the first heartbeat succeeds (code 0). -/
theorem c5_amended_auth_then_first_ping :
    (let auth : ApiOutcome :=
       .response (some [("code", .jint 0), ("data", .jobj [("uid", .jstr ("abc"))])])
     let r0 := render_profile_info (ProxyManager.init ("tok") ("p1") ("b1")) auth []
     let r1 := render_profile_info (ProxyManager.init ("tok") ("p1") ("b1")) auth
       [.response (some [("code", .jint 0)])]
     jget r0.1.account_info ("uid") = some (JVal.jstr ("abc")) ∧
       r0.1.status_connect = NONE_CONNECTION ∧
       jget r1.1.account_info ("uid") = some (JVal.jstr ("abc")) ∧
       r1.1.status_connect = CONNECTED) :=
  ⟨rfl, rfl, rfl, rfl⟩

/-- Claim C6: any heartbeat failure other than a 403 — transport error,
rejected body, or validated code that is neither 0 nor 403 — increments
`retries` by exactly one and sets `DISCONNECTED`, leaving every other
field (`token_info`, `account_info`, `browser_id`, `proxy`) unchanged:
the result is the input state with only those two fields updated. -/
theorem c6_failed_ping_frame (s : ProxyManager) (f : JObj) (o : ApiOutcome)
    (hacc : s.account_info = .jobj f) (hfail : pingFailNon403 o = true) :
    ping s o = some { s with retries := s.retries + 1, status_connect := DISCONNECTED } := by
  cases o with
  | transportError =>
    simp [ping, hacc, handle_ping_fail, respIs403, ite_self]
  | response body =>
    cases hv : valid_resp body with
    | error e =>
      simp [ping, hacc, hv, handle_ping_fail, respIs403, ite_self]
    | ok fields =>
      simp only [pingFailNon403, hv, Bool.and_eq_true, Bool.not_eq_true'] at hfail
      obtain ⟨h0, h403⟩ := hfail
      simp [ping, hacc, hv, h0, handle_ping_fail, respIs403, h403, ite_self]

/-- Witness for C6: a transport failure on a fresh agent. -/
theorem c6_witness :
    ping (ProxyManager.init ("t") ("p") ("b")) ApiOutcome.transportError =
      some { ProxyManager.init ("t") ("p") ("b") with
             retries := 1, status_connect := DISCONNECTED } :=
  c6_failed_ping_frame _ [] _ rfl rfl

/-- Claim C7: on the protocol's typed domain (a numeric `"code"` field
when one is present), `valid_resp` raises `ValueError` exactly on the
bodies described by the claim — absent, falsy, code-less, or negative
code — and returns every other body unchanged (in particular a 403 or
any non-negative code passes through). -/
theorem c7_valid_resp_characterised (body : Option JObj)
    (hnum : codeNumeric body = true) :
    ((valid_resp body = .error VErr.valueError) ↔ respInvalidSpec body = true) ∧
      ∀ fields, body = some fields → respInvalidSpec body = false →
        valid_resp body = .ok fields := by
  cases body with
  | none =>
    refine ⟨by simp [valid_resp, respInvalidSpec], ?_⟩
    intro fields h
    exact absurd h (by simp)
  | some fields =>
    cases fields with
    | nil =>
      refine ⟨by simp [valid_resp, respInvalidSpec], ?_⟩
      intro fields' _ hf
      simp [respInvalidSpec] at hf
    | cons p rest =>
      cases hc : jlookup (p :: rest) ("code") with
      | none =>
        refine ⟨by simp [valid_resp, respInvalidSpec, hc], ?_⟩
        intro fields' _ hf
        simp [respInvalidSpec, hc] at hf
      | some v =>
        cases v with
        | jint c =>
          constructor
          · by_cases hcl : c < 0
            · simp [valid_resp, respInvalidSpec, hc, hcl]
            · simp [valid_resp, respInvalidSpec, hc, hcl]
          · intro fields' h hf
            injection h with h'
            subst h'
            simp [respInvalidSpec, hc] at hf
            simp [valid_resp, hc, hf]
        | jnull => simp [codeNumeric, hc] at hnum
        | jstr str => simp [codeNumeric, hc] at hnum
        | jobj o => simp [codeNumeric, hc] at hnum

/-- Witness for C7: a body carrying code 403 passes validation and is
returned unchanged. -/
theorem c7_witness :
    valid_resp (some [("code", JVal.jint 403)]) = .ok [("code", JVal.jint 403)] :=
  (c7_valid_resp_characterised (some [("code", JVal.jint 403)]) rfl).2 _ rfl rfl

/-- Claim C8: the orchestrator's active task set only ever shrinks:
whatever is still active after additional polling rounds was already
active after the earlier rounds (instantiating `evs = []` gives
containment in the initial set, and contraposition gives that a dropped
task never reappears). -/
theorem c8_active_set_only_shrinks (tasks : List (Nat × String))
    (evs more : List (List Nat)) (t : Nat × String)
    (h : t ∈ runLoop tasks (evs ++ more)) : t ∈ runLoop tasks evs := by
  induction evs generalizing tasks with
  | nil => exact mem_of_mem_runLoop tasks more h
  | cons d rest ih => exact ih (loopStep tasks d) h

/-- Witness for C8: a task surviving two rounds already survived the
first. -/
theorem c8_witness :
    (2, "p2") ∈ runLoop [(1, "p1"), (2, "p2")] [[1]] :=
  c8_active_set_only_shrinks [(1, "p1"), (2, "p2")] [[1]] [[3]] (2, "p2") (by decide)

/-- Claim C10: `render_profile_info` returns `None` on every path —
authentication error, missing uid followed by logout, and heartbeat-loop
exit — so the orchestrator's `task.result() is None` check holds for
every completed task. -/
theorem c10_run_always_returns_none (s : ProxyManager) (auth : ApiOutcome)
    (pings : List ApiOutcome) :
    (render_profile_info s auth pings).2 = none := by
  cases auth with
  | transportError => rfl
  | response body =>
    cases hv : valid_resp body with
    | error e => simp [render_profile_info, load_session_info, hv]
    | ok fields =>
      cases hd : jlookup fields ("data") with
      | none => simp [render_profile_info, load_session_info, hv, hd]
      | some v =>
        cases v with
        | jobj data =>
          by_cases hu : jtruthyOpt (jlookup data ("uid")) = true
          · simp [render_profile_info, load_session_info, hv, hd, hu]
          · simp [render_profile_info, load_session_info, hv, hd, hu]
        | jnull => simp [render_profile_info, load_session_info, hv, hd]
        | jint n => simp [render_profile_info, load_session_info, hv, hd]
        | jstr str => simp [render_profile_info, load_session_info, hv, hd]

end Noda
